import Mathlib

/-!
Shallow embedding of the k23 virtual-memory management core:
the TLB flush batcher (`src/libs/kmm/src/flush.rs`), the unified error
taxonomy (`src/libs/vmm/src/error.rs`) and the build configuration parsing
(`src/build/config/src/lib.rs`).

Machine addresses are embedded as `Nat`; Rust `Range<VirtualAddress>` becomes
the `VRange` structure (half-open interval, field `stop` for Rust's `end`).
The hardware invalidation primitive of the `Mode` trait is a parameter
`inv : Nat → VRange → Except KError Unit`; effectful operations return,
next to their result, the list of hardware invalidation calls they issued,
so that "issues exactly one hardware call" is a statement about that list.
-/

namespace K23

abbrev VirtualAddress := Nat
abbrev PhysicalAddress := Nat

/-- Rust `Range<VirtualAddress>`: the half-open interval `[start, stop)`. -/
structure VRange where
  start : VirtualAddress
  stop : VirtualAddress
  deriving DecidableEq

/-- Modelled from the spec: `AddressRangeExt::concat` lives in the kmm crate
outside the provided sources; per the spec it merges two contiguous or
overlapping ranges into their union bound `[min(start), max(end))`. -/
def VRange.concat (a b : VRange) : VRange :=
  ⟨min a.start b.start, max a.stop b.stop⟩

/-- `Error` from `src/libs/vmm/src/error.rs`. The `cfg(target_arch = "riscv64")`
gate on the `SBI` variant is embedded as the index `hw`: the variant carries a
proof that it can only be formed on the hardware target (`hw = true`). The
payload of `SBI` (the external `sbicall::Error`) is embedded as an opaque
`Nat` code. -/
inductive Error (hw : Bool) : Type where
  | OutOfMemory : Error hw
  | AddressSpaceMismatch (expected found : Nat) : Error hw
  | DoubleFree (addr : PhysicalAddress) : Error hw
  | SBI (h : hw = true) (inner : Nat) : Error hw

/-- The error type as seen by the kernel proper (riscv64 hardware target). -/
abbrev KError := Error true

/-- `Flush<M>` from `src/libs/kmm/src/flush.rs`: an ASID together with an
optional pending virtual range. -/
structure Flush where
  asid : Nat
  range : Option VRange
  deriving DecidableEq

/-- `Flush::empty`. -/
def Flush.empty (asid : Nat) : Flush :=
  { asid := asid, range := none }

/-- `Flush::new`. -/
def Flush.new (asid : Nat) (range : VRange) : Flush :=
  { asid := asid, range := some range }

/-- `Flush::flush`, with the Mode's `invalidate_range` passed in as `inv`.
Returns the Rust result together with the list of hardware invalidation
calls issued (`(asid, range)` pairs). -/
def Flush.flush (inv : Nat → VRange → Except KError Unit)
    (f : Flush) : Except KError Unit × List (Nat × VRange) :=
  match f.range with
  | some range =>
    (match inv f.asid range with
     | Except.ok _ => Except.ok ()
     | Except.error e => Except.error e,
     [(f.asid, range)])
  | none => (Except.ok (), [])

/-- `Flush::ignore`: empty body, no hardware call. -/
def Flush.ignore (_f : Flush) : Unit × List (Nat × VRange) :=
  ((), [])

/-- `Flush::extend_range`. Returns the Rust result together with the batcher
state after the call (`&mut self` embedded as state passing). -/
def Flush.extend_range (f : Flush) (asid : Nat) (other : VRange) :
    Except KError Unit × Flush :=
  if f.asid = asid then
    match f.range with
    | some this => (Except.ok (), { asid := f.asid, range := some (this.concat other) })
    | none => (Except.ok (), { asid := f.asid, range := some other })
  else
    (Except.error (Error.AddressSpaceMismatch f.asid asid), f)

/-- Modelled from the spec: the Frame Allocator (spec §4.4) is repository code
outside the provided sources; only its error variants appear in
`src/libs/vmm/src/error.rs`. Frames are identified by physical address; the
state records the free pool, and `free` must detect a double free before the
frame is returned to the pool. -/
structure FrameAllocator where
  freeFrames : List PhysicalAddress
  deriving DecidableEq

/-- Modelled from the spec: `free(addr)` transitions an `Allocated` frame back
to `Free`; it fails with `DoubleFree(addr)` if the frame is already `Free`,
and only on success is the frame returned to the free pool. -/
def FrameAllocator.free (st : FrameAllocator) (addr : PhysicalAddress) :
    Except KError Unit × FrameAllocator :=
  if addr ∈ st.freeFrames then
    (Except.error (Error.DoubleFree addr), st)
  else
    (Except.ok (), { freeFrames := addr :: st.freeFrames })

/-! Build configuration, `src/build/config/src/lib.rs`. Rust strings are
embedded as `List Char`. -/

/-- Splits off the part of `s` before the first occurrence of `sep`; the second
component is the remainder after that separator, or `none` when `sep` does not
occur in `s`. -/
def splitAtFirst (sep : Char) : List Char → List Char × Option (List Char)
  | [] => ([], none)
  | c :: cs =>
    if c = sep then ([], some cs)
    else
      let p := splitAtFirst sep cs
      (c :: p.1, p.2)

/-- Rust `target_triple.splitn(4, '-')` unrolled: at most four pieces, the
last piece keeping any further separators. -/
def splitn4 (s : List Char) : List (List Char) :=
  match splitAtFirst '-' s with
  | (a, none) => [a]
  | (a, some r1) =>
    match splitAtFirst '-' r1 with
    | (b, none) => [a, b]
    | (b, some r2) =>
      match splitAtFirst '-' r2 with
      | (c, none) => [a, b, c]
      | (c, some r3) => [a, b, c, r3]

/-- `TargetTriple` from the config crate. -/
structure TargetTriple where
  arch : List Char
  vendor : List Char
  os : List Char
  env : List Char
  deriving DecidableEq

def errMissingVendor : String := "missing vendor in target triple"
def errMissingOS : String := "missing OS in target triple"
def errMissingEnv : String := "missing environment in target triple"
def errUnsupportedArch : String := "unsupported architecture"
def errUnsupportedVendor : String := "unsupported vendor"
def errUnsupportedOS : String := "unsupported OS"
def errUnsupportedEnv : String := "unsupported environment"
def errMissingArch : String := "missing architecture in target triple"

/-- `TargetTriple::from_str`: split on at most three dashes, require all four
components to be present, then check them against the one supported triple.
`anyhow::Error` is embedded as the message string. -/
def TargetTriple.from_str (s : List Char) : Except String TargetTriple :=
  match splitn4 s with
  | [_a] => Except.error errMissingVendor
  | [_a, _b] => Except.error errMissingOS
  | [_a, _b, _c] => Except.error errMissingEnv
  | [arch, vendor, os, env] =>
    if arch = String.toList "riscv64gc" then
      if vendor = String.toList "unknown" then
        if os = String.toList "none" then
          if env = String.toList "elf" then
            Except.ok { arch := arch, vendor := vendor, os := os, env := env }
          else Except.error errUnsupportedEnv
        else Except.error errUnsupportedOS
      else Except.error errUnsupportedVendor
    else Except.error errUnsupportedArch
  | _ => Except.error errMissingArch

/-- `Target`: either a known target triple or a filesystem path. -/
inductive Target : Type where
  | Triple (t : TargetTriple)
  | Path (p : List Char)
  deriving DecidableEq

/-- `Target::from_str`: any string rejected as a triple is accepted as a path. -/
def Target.from_str (target : List Char) : Except String Target :=
  match TargetTriple.from_str target with
  | Except.ok triple => Except.ok (Target.Triple triple)
  | Except.error _ => Except.ok (Target.Path target)

/-- `kernel_default_stack_size_pages`. -/
def kernel_default_stack_size_pages : Nat := 16

/-- `bootloader_default_stack_size_pages`. -/
def bootloader_default_stack_size_pages : Nat := 4

/-- `LogLevel` with its `#[default]` variant `Info`. -/
inductive LogLevel : Type where
  | Error
  | Warn
  | Info
  | Debug
  | Trace
  deriving DecidableEq

/-- The `#[default]` attribute on `LogLevel::Info`. -/
def LogLevel.default : LogLevel := LogLevel.Info

/-- `KernelConfig` after deserialization. -/
structure KernelConfig where
  stack_size_pages : Nat
  features : List (List Char)
  log_level : LogLevel
  uart_baud_rate : Nat
  target : Option Target

/-- `LoaderConfig` after deserialization. -/
structure LoaderConfig where
  stack_size_pages : Nat
  features : List (List Char)
  log_level : LogLevel
  target : Option Target

/-- The fields of a `KernelConfig` section as present in the configuration
file: fields carrying a serde default attribute may be omitted (`none`). -/
structure KernelConfigFields where
  stack_size_pages : Option Nat
  features : Option (List (List Char))
  log_level : Option LogLevel
  uart_baud_rate : Nat
  target : Option Target

/-- The fields of a `LoaderConfig` section as present in the configuration
file. -/
structure LoaderConfigFields where
  stack_size_pages : Option Nat
  features : Option (List (List Char))
  log_level : Option LogLevel
  target : Option Target

/-- Serde deserialization of `KernelConfig`: an omitted field falls back to
the function named in its `#[serde(default = ...)]` attribute, a bare
`#[serde(default)]` falls back to the type's `Default` value. -/
def KernelConfig.deserialize (f : KernelConfigFields) : KernelConfig :=
  { stack_size_pages := f.stack_size_pages.getD kernel_default_stack_size_pages,
    features := f.features.getD [],
    log_level := f.log_level.getD LogLevel.default,
    uart_baud_rate := f.uart_baud_rate,
    target := f.target }

/-- Serde deserialization of `LoaderConfig`. -/
def LoaderConfig.deserialize (f : LoaderConfigFields) : LoaderConfig :=
  { stack_size_pages := f.stack_size_pages.getD bootloader_default_stack_size_pages,
    features := f.features.getD [],
    log_level := f.log_level.getD LogLevel.default,
    target := f.target }

/-- Rust `Result::is_ok` for the embedded `Except`. -/
def exceptIsOk {ε α : Type _} : Except ε α → Bool
  | Except.ok _ => true
  | Except.error _ => false

/-! Helper lemmas about the split functions. -/

theorem splitAtFirst_none_eq (sep : Char) :
    ∀ s a : List Char, splitAtFirst sep s = (a, none) → s = a := by
  intro s
  induction s with
  | nil =>
    intro a h
    simp only [splitAtFirst, Prod.mk.injEq] at h
    exact h.1
  | cons c cs ih =>
    intro a h
    by_cases hc : c = sep
    · simp [splitAtFirst, hc] at h
    · simp only [splitAtFirst, if_neg hc, Prod.mk.injEq] at h
      obtain ⟨h1, h2⟩ := h
      have hcs : splitAtFirst sep cs = ((splitAtFirst sep cs).1, none) := by
        rw [← h2]
      rw [← h1]
      exact congrArg (fun l => c :: l) (ih _ hcs)

theorem splitAtFirst_some_eq (sep : Char) :
    ∀ s a r : List Char, splitAtFirst sep s = (a, some r) → s = a ++ sep :: r := by
  intro s
  induction s with
  | nil =>
    intro a r h
    simp [splitAtFirst] at h
  | cons c cs ih =>
    intro a r h
    by_cases hc : c = sep
    · simp only [splitAtFirst, if_pos hc, Prod.mk.injEq, Option.some.injEq] at h
      obtain ⟨h1, h2⟩ := h
      rw [← h1, List.nil_append, hc, h2]
    · simp only [splitAtFirst, if_neg hc, Prod.mk.injEq] at h
      obtain ⟨h1, h2⟩ := h
      have hcs : splitAtFirst sep cs = ((splitAtFirst sep cs).1, some r) := by
        rw [← h2]
      rw [← h1, List.cons_append]
      exact congrArg (fun l => c :: l) (ih _ _ hcs)

theorem splitn4_four_eq (s a b c d : List Char)
    (h : splitn4 s = [a, b, c, d]) :
    s = a ++ '-' :: (b ++ '-' :: (c ++ '-' :: d)) := by
  unfold splitn4 at h
  split at h
  · simp at h
  · rename_i a1 r1 h1
    split at h
    · simp at h
    · rename_i b1 r2 h2
      split at h
      · simp at h
      · rename_i c1 r3 h3
        simp only [List.cons.injEq, and_true] at h
        obtain ⟨ha, hb, hc, hd⟩ := h
        subst ha hb hc hd
        rw [splitAtFirst_some_eq '-' s _ _ h1, splitAtFirst_some_eq '-' r1 _ _ h2,
          splitAtFirst_some_eq '-' r2 _ _ h3]

/-! Claim theorems. -/

/-- C1: for a Flush batcher with ASID `a` holding pending range `r1`, calling
`extend_range` with a different ASID `b` returns
`AddressSpaceMismatch (expected := a) (found := b)` and leaves the batcher
(ASID and pending range) unchanged: no partial merge occurs on failure. -/
theorem c1_extend_range_asid_mismatch (a : Nat) (r1 : VRange) (b : Nat) (r2 : VRange)
    (h : b ≠ a) :
    Flush.extend_range (Flush.new a r1) b r2 =
      (Except.error (Error.AddressSpaceMismatch a b), Flush.new a r1) := by
  simp [Flush.extend_range, Flush.new, Ne.symm h]

/-- Witness for C1 at ASIDs 1 and 2 with concrete ranges. -/
theorem c1_extend_range_asid_mismatch_witness :
    (2 : Nat) ≠ 1 ∧
    Flush.extend_range (Flush.new 1 ⟨0x1000, 0x2000⟩) 2 ⟨0x2000, 0x3000⟩ =
      (Except.error (Error.AddressSpaceMismatch 1 2), Flush.new 1 ⟨0x1000, 0x2000⟩) :=
  ⟨by decide, c1_extend_range_asid_mismatch 1 ⟨0x1000, 0x2000⟩ 2 ⟨0x2000, 0x3000⟩ (by decide)⟩

/-- C2: with a matching ASID, extending with `[0x1000, 0x2000)` takes the
batcher from Empty to Pending with that range, a second extend with
`[0x2000, 0x3000)` merges into Pending with `[0x1000, 0x3000)`, and `flush`
then issues exactly one hardware invalidation call, with the merged range. -/
theorem c2_extend_merge_single_flush (asid : Nat)
    (inv : Nat → VRange → Except KError Unit) :
    (Flush.empty asid).range = none ∧
    Flush.extend_range (Flush.empty asid) asid ⟨0x1000, 0x2000⟩ =
      (Except.ok (), Flush.new asid ⟨0x1000, 0x2000⟩) ∧
    Flush.extend_range (Flush.new asid ⟨0x1000, 0x2000⟩) asid ⟨0x2000, 0x3000⟩ =
      (Except.ok (), Flush.new asid ⟨0x1000, 0x3000⟩) ∧
    (Flush.flush inv (Flush.new asid ⟨0x1000, 0x3000⟩)).2 =
      [(asid, ⟨0x1000, 0x3000⟩)] := by
  refine ⟨rfl, ?_, ?_, rfl⟩
  · simp [Flush.extend_range, Flush.empty, Flush.new]
  · norm_num [Flush.extend_range, Flush.new, VRange.concat]

/-- C3: flushing a batcher constructed with `Flush::empty` and never extended
issues no hardware invalidation call and returns success. -/
theorem c3_flush_empty_no_hw (asid : Nat) (inv : Nat → VRange → Except KError Unit) :
    Flush.flush inv (Flush.empty asid) = (Except.ok (), []) :=
  rfl

/-- C4: flushing a Pending batcher with ASID `a` and range `r` invokes the
Mode's `invalidate_range a r` exactly once, and the result of `flush` is
exactly the result of that call (success is returned, failure propagated). -/
theorem c4_flush_pending_propagates (a : Nat) (r : VRange)
    (inv : Nat → VRange → Except KError Unit) :
    (Flush.flush inv (Flush.new a r)).2 = [(a, r)] ∧
    (Flush.flush inv (Flush.new a r)).1 = inv a r := by
  refine ⟨rfl, ?_⟩
  cases h : inv a r with
  | ok u =>
    cases u
    simp [Flush.flush, Flush.new, h]
  | error e =>
    simp [Flush.flush, Flush.new, h]

/-- C5 counterexample: a Flush whose recorded virtual range is
`[0x1000, 0x1000)` — which covers no addresses — does reach the hardware
invalidation primitive when flushed: the call trace is nonempty. -/
theorem c5_empty_range_reaches_hw :
    (Flush.flush (fun _ _ => Except.ok ()) (Flush.new 0 ⟨0x1000, 0x1000⟩)).2 ≠ [] := by
  decide

/-- C5 amended: only a Flush obligation with no recorded range at all
(`range = None`) skips the hardware primitive and succeeds; whenever a range
is recorded — even one covering no addresses — the primitive is invoked with
that range. -/
theorem c5_flush_none_no_hw (asid : Nat) (r : VRange)
    (inv : Nat → VRange → Except KError Unit) :
    Flush.flush inv (Flush.empty asid) = (Except.ok (), []) ∧
    (Flush.flush inv (Flush.new asid r)).2 = [(asid, r)] :=
  ⟨rfl, rfl⟩

/-- C6: freeing an allocated frame (not in the free pool) succeeds, and an
immediately repeated `free` of the same address yields `DoubleFree addr`:
the double free is detected and rejected, never silently accepted. -/
theorem c6_double_free_detected (st : FrameAllocator) (addr : PhysicalAddress)
    (h : addr ∉ st.freeFrames) :
    (st.free addr).1 = Except.ok () ∧
    ((st.free addr).2.free addr).1 = Except.error (Error.DoubleFree addr) := by
  simp [FrameAllocator.free, h]

/-- Witness for C6: frame 5 with an empty free pool. -/
theorem c6_double_free_detected_witness :
    (5 : Nat) ∉ (FrameAllocator.mk []).freeFrames ∧
    ((FrameAllocator.mk []).free 5).1 = Except.ok () ∧
    (((FrameAllocator.mk []).free 5).2.free 5).1 = Except.error (Error.DoubleFree 5) :=
  ⟨by decide, c6_double_free_detected (FrameAllocator.mk []) 5 (by decide)⟩

/-- C7: the error taxonomy is closed: every `Error` value is one of
`OutOfMemory`, `AddressSpaceMismatch`, `DoubleFree` or the hardware fault
wrapper `SBI`, and the `SBI` variant can only exist on the hardware target
(`hw = true`); off the hardware target only the first three kinds exist. -/
theorem c7_error_taxonomy_closed :
    (∀ (hw : Bool) (e : Error hw),
      e = Error.OutOfMemory ∨
      (∃ expected found, e = Error.AddressSpaceMismatch expected found) ∨
      (∃ addr, e = Error.DoubleFree addr) ∨
      (hw = true ∧ ∃ h inner, e = Error.SBI h inner)) ∧
    (∀ e : Error false,
      e = Error.OutOfMemory ∨
      (∃ expected found, e = Error.AddressSpaceMismatch expected found) ∨
      (∃ addr, e = Error.DoubleFree addr)) := by
  constructor
  · intro hw e
    cases e with
    | OutOfMemory => exact Or.inl rfl
    | AddressSpaceMismatch x f => exact Or.inr (Or.inl ⟨x, f, rfl⟩)
    | DoubleFree a => exact Or.inr (Or.inr (Or.inl ⟨a, rfl⟩))
    | SBI h i => exact Or.inr (Or.inr (Or.inr ⟨h, h, i, rfl⟩))
  · intro e
    cases e with
    | OutOfMemory => exact Or.inl rfl
    | AddressSpaceMismatch x f => exact Or.inr (Or.inl ⟨x, f, rfl⟩)
    | DoubleFree a => exact Or.inr (Or.inr ⟨a, rfl⟩)
    | SBI h i => exact absurd h (by decide)

/-- C8: `ignore` consumes the batcher in any state, issues no hardware
invalidation call and has no other observable effect. -/
theorem c8_ignore_no_effect (f : Flush) : Flush.ignore f = ((), []) :=
  rfl

/-- C9: `TargetTriple::from_str` succeeds exactly on the string
`riscv64gc-unknown-none-elf`, and `Target::from_str` never returns an error,
since any string rejected as a triple is accepted as a path. -/
theorem c9_target_parsing (s : List Char) :
    (exceptIsOk (TargetTriple.from_str s) = true ↔
      s = String.toList "riscv64gc-unknown-none-elf") ∧
    exceptIsOk (Target.from_str s) = true := by
  constructor
  · constructor
    · intro h
      unfold TargetTriple.from_str at h
      split at h
      · simp [exceptIsOk] at h
      · simp [exceptIsOk] at h
      · simp [exceptIsOk] at h
      · rename_i arch vendor os env heq
        split_ifs at h with h1 h2 h3 h4
        · rw [splitn4_four_eq s _ _ _ _ heq, h1, h2, h3, h4]
          decide
        · simp [exceptIsOk] at h
        · simp [exceptIsOk] at h
        · simp [exceptIsOk] at h
        · simp [exceptIsOk] at h
      · simp [exceptIsOk] at h
    · intro h
      subst h
      decide
  · unfold Target.from_str
    split <;> rfl

/-- C10: when the configuration file omits them, deserialization defaults the
kernel's per-hart `stack_size_pages` to 16, the bootloader's to 4, and each
section's `log_level` to `Info`. -/
theorem c10_config_defaults :
    (∀ (features : Option (List (List Char))) (uart : Nat) (target : Option Target),
      (KernelConfig.deserialize
        { stack_size_pages := none, features := features, log_level := none,
          uart_baud_rate := uart, target := target }).stack_size_pages = 16 ∧
      (KernelConfig.deserialize
        { stack_size_pages := none, features := features, log_level := none,
          uart_baud_rate := uart, target := target }).log_level = LogLevel.Info) ∧
    (∀ (features : Option (List (List Char))) (target : Option Target),
      (LoaderConfig.deserialize
        { stack_size_pages := none, features := features, log_level := none,
          target := target }).stack_size_pages = 4 ∧
      (LoaderConfig.deserialize
        { stack_size_pages := none, features := features, log_level := none,
          target := target }).log_level = LogLevel.Info) :=
  ⟨fun _ _ _ => ⟨rfl, rfl⟩, fun _ _ => ⟨rfl, rfl⟩⟩

end K23
